import Mathlib

/-!
Shallow embedding of `src/app.py` (Wasabi single-file uploader).

The program is a Flask app with one route.  At module load it reads five
environment variables (trimmed, empty treated as absent), builds a boto3
session/client (calling `.strip()` on four of the values), and runs a
one-time auth probe (`list_buckets`) whose result is cached process-wide.
Each request is handled by `index`, which (for POST, when startup auth
succeeded) runs `preflight_bucket` (head-bucket with error classification),
`diag_put` (a throwaway write under `diag/`), then validates the uploaded
file, writes it under `uploads/<uuid>_<secure_filename(name)>` and presigns
a one-hour get-object URL.

Modelling conventions:
* The object store is an oracle (`Store`): each operation either succeeds
  or raises a botocore `ClientError` carrying an error code and message —
  the only exception class the program catches.  `index` additionally
  returns the list of store calls it issued, in order.
* The per-request `uuid.uuid4()` values are passed in as parameters
  (`uDiag`, `uUp`), since they are fresh random strings.
* Byte strings are `List Nat` (one entry per byte).
* `werkzeug.utils.secure_filename` and the truthiness of
  `werkzeug.datastructures.FileStorage` (falsy iff its `filename` is the
  empty string) are modelled from the library behaviour, POSIX separators,
  ASCII input (NFKD normalisation is the identity there).
-/

namespace WasabiApp

/-- Bytes of the literal `b"diag"` written by `diag_put`. -/
def diagBody : List Nat := [100, 105, 97, 103]

/-- A botocore `ClientError`: the `Error.Code` and `Error.Message` fields of
its response payload (a missing field renders as the string "None" in the
f-string of `_err_text`). -/
structure ClientError where
  code : String
  msg : String
deriving DecidableEq

/-- `_err_text` (src/app.py:63-69): the "code: message" rendering of a
`ClientError`. -/
def errText (e : ClientError) : String := e.code ++ ": " ++ e.msg

/-- One call made to the S3-compatible store. -/
inductive StoreCall where
  | listBuckets
  | headBucket (bucket : String)
  | putObject (bucket key : String) (body : List Nat) (contentType : String)
  | presignGetObject (bucket key : String) (expiresIn : Nat)
  | deleteObject (bucket key : String)
deriving DecidableEq

/-- The store oracle: the outcome each operation would have on this request,
and the URL the (local, non-failing) presigner produces. -/
structure Store where
  listBucketsRes : Option ClientError
  headBucketRes : Option ClientError
  putObjectRes : String → String → List Nat → String → Option ClientError
  presignUrl : String → String → Nat → String

/-- The configuration values a started process holds (src/app.py:27-31,
after `_env` succeeded for each). -/
structure RunConfig where
  bucket : String
  region : String
  endpointURL : String
deriving DecidableEq

/-- Python `repr` of a string as used by the `{WASABI_BUCKET!r}` f-string
(quote/backslash escaping elided: it does not occur in the claims'
instances). -/
def pyReprStr (s : String) : String := "\'" ++ s ++ "\'"

/-- Whether the first list is an initial segment of the second. -/
def prefixOfL : List Char → List Char → Bool
  | [], _ => true
  | _ :: _, [] => false
  | a :: as, b :: bs => a = b && prefixOfL as bs

/-- Whether the first list occurs contiguously inside the second. -/
def infixOfL (needle : List Char) : List Char → Bool
  | [] => prefixOfL needle []
  | hay@(_ :: tl) => prefixOfL needle hay || infixOfL needle tl

/-- Python `needle in hay` substring test. -/
def strIn (needle hay : String) : Bool := infixOfL needle.data hay.data

/-- The bucket-not-found message of `preflight_bucket` (src/app.py:90-91). -/
def notFoundMsg (cfg : RunConfig) : String :=
  "Bucket not found. Check spelling and region. (bucket=" ++ pyReprStr cfg.bucket
    ++ ", region=" ++ cfg.region ++ ", endpoint=" ++ cfg.endpointURL ++ ")"

/-- The access-denied message of `preflight_bucket` (src/app.py:93). -/
def accessDeniedMsg : String :=
  "Access denied to bucket. Keys must belong to same Wasabi account and have s3:ListBucket & s3:PutObject."

/-- The region-mismatch message of `preflight_bucket` (src/app.py:95). -/
def regionMismatchMsg : String :=
  "Region mismatch. Set WASABI_REGION to the bucket\'s region and use endpoint https://s3.<region>.wasabisys.com"

/-- `auth_ok` (src/app.py:71-79): list-buckets probe, catching `ClientError`.
Returns ((ok, detail), the store calls made). -/
def auth_ok (st : Store) : (Bool × Option String) × List StoreCall :=
  match st.listBucketsRes with
  | none => ((true, none), [.listBuckets])
  | some e => ((false, some (errText e)), [.listBuckets])

/-- The `if`/`elif` classification of the head-bucket error text inside
`preflight_bucket` (src/app.py:89-96). -/
def classifyHeadErr (cfg : RunConfig) (err : String) : String :=
  if strIn "NoSuchBucket" err || strIn "404" err then notFoundMsg cfg
  else if strIn "AccessDenied" err || strIn "403" err then accessDeniedMsg
  else if strIn "AuthorizationHeaderMalformed" err || strIn "301" err then regionMismatchMsg
  else err

/-- `preflight_bucket` (src/app.py:81-96): head-bucket on the configured
bucket; `None` on success, a classified message on `ClientError`. -/
def preflight_bucket (cfg : RunConfig) (st : Store) : Option String × List StoreCall :=
  match st.headBucketRes with
  | none => (none, [.headBucket cfg.bucket])
  | some e => (some (classifyHeadErr cfg (errText e)), [.headBucket cfg.bucket])

/-- The key `f"diag/{uuid.uuid4()}.txt"` used by `diag_put` (src/app.py:100). -/
def diagKey (u : String) : String := "diag/" ++ u ++ ".txt"

/-- `diag_put` (src/app.py:99-108): put `b"diag"` as `text/plain` under a
fresh `diag/<uuid>.txt` key; `None` on success, `_err_text(e)` on
`ClientError`. -/
def diag_put (cfg : RunConfig) (st : Store) (u : String) : Option String × List StoreCall :=
  match st.putObjectRes cfg.bucket (diagKey u) diagBody "text/plain" with
  | none => (none, [.putObject cfg.bucket (diagKey u) diagBody "text/plain"])
  | some e => (some (errText e), [.putObject cfg.bucket (diagKey u) diagBody "text/plain"])

/-- Python `str.encode("ascii", "ignore")`: drop every non-ASCII character. -/
def asciiEncodeIgnore (s : String) : String := ⟨s.data.filter (fun c => c.toNat < 128)⟩

/-- A character the werkzeug filename regex `[^A-Za-z0-9_.-]` keeps. -/
def isSafeFilenameChar (c : Char) : Bool := c.isAlphanum || c = '_' || c = '.' || c = '-'

/-- Python `filename.replace(os.sep, " ")` with the POSIX separator `/`
(a one-character needle, so a character map). -/
def slashToSpace (s : String) : String :=
  ⟨s.data.map (fun c => if c = '/' then ' ' else c)⟩

/-- Accumulator pass of `pySplitWhitespace`: `acc` holds the current word
reversed. -/
def pyWordsAux : List Char → List Char → List String
  | [], acc => if acc.isEmpty then [] else [⟨acc.reverse⟩]
  | c :: cs, acc =>
    if c.isWhitespace then
      if acc.isEmpty then pyWordsAux cs [] else ⟨acc.reverse⟩ :: pyWordsAux cs []
    else pyWordsAux cs (c :: acc)

/-- Python `str.split()` with no argument: split on whitespace runs,
discarding empty pieces. -/
def pySplitWhitespace (s : String) : List String := pyWordsAux s.data []

/-- Python `"_".join(words)`. -/
def joinUnderscore : List String → String
  | [] => ""
  | [w] => w
  | w :: ws => w ++ "_" ++ joinUnderscore ws

/-- Python `str.strip("._")`: drop leading and trailing `.` and `_`. -/
def stripDotUnderscore (s : String) : String :=
  ⟨((s.data.dropWhile (fun c => c = '.' || c = '_')).reverse.dropWhile
      (fun c => c = '.' || c = '_')).reverse⟩

/-- Python `str.strip()` with no argument: drop leading and trailing
whitespace. -/
def pyStripWs (s : String) : String :=
  ⟨((s.data.dropWhile Char.isWhitespace).reverse.dropWhile Char.isWhitespace).reverse⟩

/-- `werkzeug.utils.secure_filename`, modelled for POSIX (`os.sep = "/"`,
no `altsep`) and ASCII input: ASCII-encode dropping the rest, turn `/` into
spaces, join the whitespace-split pieces with `_`, drop characters outside
`[A-Za-z0-9_.-]`, strip leading/trailing `.` and `_`. -/
def secure_filename (filename : String) : String :=
  let f := slashToSpace (asciiEncodeIgnore filename)
  let joined := joinUnderscore (pySplitWhitespace f)
  stripDotUnderscore ⟨joined.data.filter isSafeFilenameChar⟩

/-- A werkzeug `FileStorage`: the multipart part's declared filename, its
bytes, and its declared mimetype (empty models a falsy/absent one). -/
structure FileStorage where
  filename : String
  content : List Nat
  mimetype : String
deriving DecidableEq

/-- The content type used for the real put (src/app.py:322):
`f.mimetype or "application/octet-stream"`. -/
def contentTypeOf (f : FileStorage) : String :=
  if f.mimetype = "" then "application/octet-stream" else f.mimetype

/-- The upload key `f"uploads/{uuid.uuid4()}_{fname}"` (src/app.py:314). -/
def uploadKey (u fname : String) : String := "uploads/" ++ u ++ "_" ++ fname

/-- HTTP method of a request to `/`. -/
inductive Method where
  | GET
  | POST
deriving DecidableEq

/-- An incoming request: its method and `request.files.get("file")`
(`none` when the multipart form has no `file` part). -/
structure Request where
  method : Method
  file : Option FileStorage
deriving DecidableEq

/-- The process-wide state `index` consults: the configuration and the
cached startup-auth result `_auth_ok, _auth_err` (src/app.py:111). -/
structure App where
  cfg : RunConfig
  authOk : Bool
  authErr : Option String
deriving DecidableEq

/-- The template variables a `render_template_string(HTML, ...)` call
receives (src/app.py:280-283, 292-302, 332-340). -/
structure Page where
  url : Option String
  error : Option String
  startupError : Option String
  endpoint : String
  region : String
  bucket : String
deriving DecidableEq

/-- One rendered page (the endpoint/region/bucket badges are the
configuration values on every render path). -/
def renderPage (cfg : RunConfig) (url error startupError : Option String) : Page :=
  { url := url, error := error, startupError := startupError,
    endpoint := cfg.endpointURL, region := cfg.region, bucket := cfg.bucket }

/-- `index` (src/app.py:276-340).  `uDiag` and `uUp` are the request's two
fresh `uuid.uuid4()` draws (for the diagnostic key and the upload key).
Returns the rendered page and the store calls made, in order.
`if not f` is false exactly when the part is present with a non-empty
filename (`FileStorage.__bool__` is `bool(self.filename)`). -/
def index (a : App) (req : Request) (st : Store) (uDiag uUp : String) :
    Page × List StoreCall :=
  if a.authOk = false then
    (renderPage a.cfg none none a.authErr, [])
  else
    match req.method with
    | .GET => (renderPage a.cfg none none none, [])
    | .POST =>
      let (pre, t1) := preflight_bucket a.cfg st
      match pre with
      | some p =>
        (renderPage a.cfg none (some ("Bucket check failed: " ++ p)) none, t1)
      | none =>
        let (d, t2) := diag_put a.cfg st uDiag
        match d with
        | some derr =>
          (renderPage a.cfg none (some ("Diagnostic PutObject failed: " ++ derr)) none, t1 ++ t2)
        | none =>
          match req.file with
          | none => (renderPage a.cfg none (some "No file selected.") none, t1 ++ t2)
          | some f =>
            if f.filename = "" then
              (renderPage a.cfg none (some "No file selected.") none, t1 ++ t2)
            else
              let fname := secure_filename f.filename
              if fname = "" then
                (renderPage a.cfg none (some "Invalid filename.") none, t1 ++ t2)
              else
                let key := uploadKey uUp fname
                let ct := contentTypeOf f
                match st.putObjectRes a.cfg.bucket key f.content ct with
                | some e =>
                  (renderPage a.cfg none (some (errText e)) none,
                   t1 ++ t2 ++ [.putObject a.cfg.bucket key f.content ct])
                | none =>
                  (renderPage a.cfg (some (st.presignUrl a.cfg.bucket key 3600)) none none,
                   t1 ++ t2 ++ [.putObject a.cfg.bucket key f.content ct,
                                .presignGetObject a.cfg.bucket key 3600])

/-! ## Startup (module-level code, src/app.py:17-111) -/

/-- The raw environment: the five `WASABI_*` variables as the environment
holds them (`none` = unset). -/
structure RawEnv where
  accessKey : Option String
  secretKey : Option String
  region : Option String
  endpointURL : Option String
  bucket : Option String
deriving DecidableEq

/-- `_env` (src/app.py:20-25): trim the value, an empty result becomes
`None`. -/
def envRead (raw : Option String) : Option String :=
  match raw with
  | none => none
  | some s => if pyStripWs s = "" then none else some (pyStripWs s)

/-- The exception module-level code can raise in the model. -/
inductive PyException where
  | attributeErrorNoneStrip
deriving DecidableEq

/-- Python `v.strip()` on a value that may be `None`: `None.strip()` raises
`AttributeError`. -/
def pyStrip : Option String → Except PyException String
  | none => .error .attributeErrorNoneStrip
  | some s => .ok (pyStripWs s)

/-- The module-level session and client construction (src/app.py:46-55):
`.strip()` is called on the access key, secret key, region and endpoint in
that order; the bucket is not touched here. -/
def buildClient (e : RawEnv) : Except PyException Unit := do
  let _ ← pyStrip (envRead e.accessKey)
  let _ ← pyStrip (envRead e.secretKey)
  let _ ← pyStrip (envRead e.region)
  let _ ← pyStrip (envRead e.endpointURL)
  pure ()

/-- Module-level startup: build the client, then run the one-time auth
probe whose result is cached as `_auth_ok, _auth_err` (src/app.py:111).
An exception here means the process never starts serving. -/
def startup (e : RawEnv) (st : Store) :
    Except PyException ((Bool × Option String) × List StoreCall) := do
  let _ ← buildClient e
  pure (auth_ok st)

/-- Whether all four values the module-level code calls `.strip()` on are
present and non-empty. -/
def stripRequiredPresent (e : RawEnv) : Bool :=
  (envRead e.accessKey).isSome && (envRead e.secretKey).isSome
    && (envRead e.region).isSome && (envRead e.endpointURL).isSome

/-- The cached startup state plus the configuration, as a request handler
sees them (src/app.py:111 feeding src/app.py:279). -/
def mkApp (cfg : RunConfig) (st0 : Store) : App × List StoreCall :=
  let r := auth_ok st0
  ({ cfg := cfg, authOk := r.1.1, authErr := r.1.2 }, r.2)

/-! ## Statement helpers -/

/-- The request-validation outcome of src/app.py:306-312: `none` when a
file part with a truthy filename that survives `secure_filename` is
present, otherwise the local error message the handler sets. -/
def validationError : Option FileStorage → Option String
  | none => some "No file selected."
  | some f =>
    if f.filename = "" then some "No file selected."
    else if secure_filename f.filename = "" then some "Invalid filename."
    else none

/-- Whether a store call is a put under the `uploads/` real-upload space,
i.e. its key starts with `"uploads/"`. -/
def isRealUploadPut : StoreCall → Bool
  | .putObject _ key _ _ => prefixOfL "uploads/".data key.data
  | _ => false

/-! ## Concrete fixtures for witnesses and counterexamples -/

/-- A sample configuration. -/
def cfg0 : RunConfig :=
  { bucket := "demo-bucket", region := "us-east-1",
    endpointURL := "https://s3.us-east-1.wasabisys.com" }

/-- A store on which every operation succeeds. -/
def okStore : Store :=
  { listBucketsRes := none, headBucketRes := none,
    putObjectRes := fun _ _ _ _ => none,
    presignUrl := fun b k e => "https://signed/" ++ b ++ "/" ++ k ++ "?exp=" ++ toString e }

/-- A store whose head-bucket fails with `NoSuchBucket`. -/
def nfStore : Store :=
  { okStore with headBucketRes := some ⟨"NoSuchBucket", "The specified bucket does not exist"⟩ }

/-- A store whose put-object fails (everywhere) with `AccessDenied`. -/
def putFailStore : Store :=
  { okStore with putObjectRes := fun _ _ _ _ => some ⟨"AccessDenied", "Access Denied"⟩ }

/-- A store whose list-buckets fails (startup auth failure). -/
def authFailStore : Store :=
  { okStore with listBucketsRes := some ⟨"InvalidAccessKeyId", "The AWS Access Key Id you provided does not exist in our records."⟩ }

/-- An app whose startup auth succeeded. -/
def app0 : App := { cfg := cfg0, authOk := true, authErr := none }

/-- A POST with no `file` part at all. -/
def reqNoFile : Request := { method := .POST, file := none }

/-- A POST whose `file` part declares the empty filename. -/
def reqEmptyName : Request := { method := .POST, file := some ⟨"", [], ""⟩ }

/-- A POST whose filename sanitises to the empty string. -/
def reqDots : Request := { method := .POST, file := some ⟨"...", [7, 8], "text/plain"⟩ }

/-- A well-formed upload POST. -/
def reqGood : Request :=
  { method := .POST, file := some ⟨"report.pdf", [1, 2, 3], "application/pdf"⟩ }

/-! ## Path characterisation of `index` -/

/-- Startup-auth failure: the cached false result short-circuits every
request to the startup-error page with no store call. -/
theorem index_authFail (a : App) (req : Request) (st : Store) (u1 u2 : String)
    (hA : a.authOk = false) :
    index a req st u1 u2 = (renderPage a.cfg none none a.authErr, []) := by
  simp [index, hA]

/-- A GET with startup auth ok renders the empty form, with no store call. -/
theorem index_get (a : App) (req : Request) (st : Store) (u1 u2 : String)
    (hA : a.authOk = true) (hM : req.method = .GET) :
    index a req st u1 u2 = (renderPage a.cfg none none none, []) := by
  simp [index, hA, hM]

/-- POST, head-bucket fails: the classified message is rendered and the
request stops after the single head-bucket call. -/
theorem index_headFail (a : App) (req : Request) (st : Store) (u1 u2 : String)
    (e : ClientError) (hA : a.authOk = true) (hM : req.method = .POST)
    (hH : st.headBucketRes = some e) :
    index a req st u1 u2 =
      (renderPage a.cfg none
        (some ("Bucket check failed: " ++ classifyHeadErr a.cfg (errText e))) none,
       [.headBucket a.cfg.bucket]) := by
  simp [index, preflight_bucket, hA, hM, hH]

/-- POST, head-bucket ok, diagnostic put fails: its verbatim error is
rendered and the request stops after head-bucket and the diagnostic put. -/
theorem index_diagFail (a : App) (req : Request) (st : Store) (u1 u2 : String)
    (e : ClientError) (hA : a.authOk = true) (hM : req.method = .POST)
    (hH : st.headBucketRes = none)
    (hD : st.putObjectRes a.cfg.bucket (diagKey u1) diagBody "text/plain" = some e) :
    index a req st u1 u2 =
      (renderPage a.cfg none (some ("Diagnostic PutObject failed: " ++ errText e)) none,
       [.headBucket a.cfg.bucket,
        .putObject a.cfg.bucket (diagKey u1) diagBody "text/plain"]) := by
  simp [index, preflight_bucket, diag_put, hA, hM, hH, hD]

/-- POST, preflight and diagnostic put ok, but the file part is missing,
has a falsy filename, or sanitises to empty: the local validation message
is rendered; the trace holds the two preflight calls and no real put. -/
theorem index_invalid (a : App) (req : Request) (st : Store) (u1 u2 : String)
    (m : String) (hA : a.authOk = true) (hM : req.method = .POST)
    (hH : st.headBucketRes = none)
    (hD : st.putObjectRes a.cfg.bucket (diagKey u1) diagBody "text/plain" = none)
    (hV : validationError req.file = some m) :
    index a req st u1 u2 =
      (renderPage a.cfg none (some m) none,
       [.headBucket a.cfg.bucket,
        .putObject a.cfg.bucket (diagKey u1) diagBody "text/plain"]) := by
  match hF : req.file with
  | none =>
    simp [validationError, hF] at hV
    simp [index, preflight_bucket, diag_put, hA, hM, hH, hD, hF, hV]
  | some f =>
    by_cases hft : f.filename = ""
    · simp [validationError, hF, hft] at hV
      simp [index, preflight_bucket, diag_put, hA, hM, hH, hD, hF, hft, hV]
    · by_cases hsf : secure_filename f.filename = ""
      · simp [validationError, hF, hft, hsf] at hV
        simp [index, preflight_bucket, diag_put, hA, hM, hH, hD, hF, hft, hsf, hV]
      · simp [validationError, hF, hft, hsf] at hV

/-- POST with a valid file, preflight and diagnostic put ok, real put
fails: its verbatim error text is rendered; no presign call is made. -/
theorem index_putFail (a : App) (req : Request) (st : Store) (u1 u2 : String)
    (f : FileStorage) (e : ClientError) (hA : a.authOk = true)
    (hM : req.method = .POST) (hF : req.file = some f)
    (hft : f.filename ≠ "") (hsf : secure_filename f.filename ≠ "")
    (hH : st.headBucketRes = none)
    (hD : st.putObjectRes a.cfg.bucket (diagKey u1) diagBody "text/plain" = none)
    (hP : st.putObjectRes a.cfg.bucket (uploadKey u2 (secure_filename f.filename))
            f.content (contentTypeOf f) = some e) :
    index a req st u1 u2 =
      (renderPage a.cfg none (some (errText e)) none,
       [.headBucket a.cfg.bucket,
        .putObject a.cfg.bucket (diagKey u1) diagBody "text/plain",
        .putObject a.cfg.bucket (uploadKey u2 (secure_filename f.filename))
          f.content (contentTypeOf f)]) := by
  simp [index, preflight_bucket, diag_put, hA, hM, hH, hD, hF, hft, hsf, hP]

/-- POST with a valid file and every store call succeeding: the presigned
URL for the upload key is rendered; the four calls happen in order. -/
theorem index_success (a : App) (req : Request) (st : Store) (u1 u2 : String)
    (f : FileStorage) (hA : a.authOk = true)
    (hM : req.method = .POST) (hF : req.file = some f)
    (hft : f.filename ≠ "") (hsf : secure_filename f.filename ≠ "")
    (hH : st.headBucketRes = none)
    (hD : st.putObjectRes a.cfg.bucket (diagKey u1) diagBody "text/plain" = none)
    (hP : st.putObjectRes a.cfg.bucket (uploadKey u2 (secure_filename f.filename))
            f.content (contentTypeOf f) = none) :
    index a req st u1 u2 =
      (renderPage a.cfg
        (some (st.presignUrl a.cfg.bucket (uploadKey u2 (secure_filename f.filename)) 3600))
        none none,
       [.headBucket a.cfg.bucket,
        .putObject a.cfg.bucket (diagKey u1) diagBody "text/plain",
        .putObject a.cfg.bucket (uploadKey u2 (secure_filename f.filename))
          f.content (contentTypeOf f),
        .presignGetObject a.cfg.bucket (uploadKey u2 (secure_filename f.filename)) 3600]) := by
  simp [index, preflight_bucket, diag_put, hA, hM, hH, hD, hF, hft, hsf, hP]

/-! ## Facts about the generated keys -/

/-- Two strings with different first characters differ. -/
theorem string_ne_of_head_ne {s t : String} (h : s.data.head? ≠ t.data.head?) :
    s ≠ t :=
  fun he => h (by rw [he])

/-- The character list of a diagnostic key. -/
theorem data_diagKey (u : String) :
    (diagKey u).data = 'd' :: 'i' :: 'a' :: 'g' :: '/' :: (u.data ++ ".txt".data) := by
  rw [diagKey, String.data_append, String.data_append]
  rfl

/-- The character list of an upload key. -/
theorem data_uploadKey (u n : String) :
    (uploadKey u n).data =
      'u' :: 'p' :: 'l' :: 'o' :: 'a' :: 'd' :: 's' :: '/' :: (u.data ++ "_".data ++ n.data) := by
  rw [uploadKey, String.data_append, String.data_append, String.data_append]
  simp [List.append_assoc]

/-- A diagnostic key is never an upload key: the `diag/` and `uploads/`
namespaces are disjoint. -/
theorem diagKey_ne_uploadKey (u v n : String) : diagKey u ≠ uploadKey v n := by
  refine string_ne_of_head_ne ?_
  rw [data_diagKey, data_uploadKey]
  simp

/-- For a fixed sanitized name, distinct random components give distinct
upload keys. -/
theorem uploadKey_injective_id (u v n : String)
    (h : uploadKey u n = uploadKey v n) : u = v := by
  have hd := congrArg String.data h
  simp only [uploadKey, String.data_append] at hd
  have h1 := List.append_cancel_right hd
  have h2 := List.append_cancel_right h1
  have h3 := List.append_cancel_left h2
  exact String.ext h3

/-- A put of the diagnostic object is not a put under `uploads/`. -/
theorem isRealUploadPut_diag (b u : String) (body : List Nat) (ct : String) :
    isRealUploadPut (.putObject b (diagKey u) body ct) = false := by
  show prefixOfL "uploads/".data (diagKey u).data = false
  rw [data_diagKey]
  rfl

/-- The head-bucket call is not a put under `uploads/`. -/
theorem isRealUploadPut_head (b : String) :
    isRealUploadPut (.headBucket b) = false := rfl

/-! ## An eliminator running through every branch of `index` -/

/-- Exhaustive case analysis of the handler: every request lands in exactly
one of the seven terminal branches, with the page and trace of that
branch. -/
theorem index_cases (a : App) (req : Request) (st : Store) (u1 u2 : String)
    (P : Page × List StoreCall → Prop)
    (hAuth : a.authOk = false → P (renderPage a.cfg none none a.authErr, []))
    (hGet : a.authOk = true → req.method = .GET →
      P (renderPage a.cfg none none none, []))
    (hHead : ∀ e, a.authOk = true → req.method = .POST →
      st.headBucketRes = some e →
      P (renderPage a.cfg none
           (some ("Bucket check failed: " ++ classifyHeadErr a.cfg (errText e))) none,
         [.headBucket a.cfg.bucket]))
    (hDiag : ∀ e, a.authOk = true → req.method = .POST →
      st.headBucketRes = none →
      st.putObjectRes a.cfg.bucket (diagKey u1) diagBody "text/plain" = some e →
      P (renderPage a.cfg none (some ("Diagnostic PutObject failed: " ++ errText e)) none,
         [.headBucket a.cfg.bucket,
          .putObject a.cfg.bucket (diagKey u1) diagBody "text/plain"]))
    (hInv : ∀ m, a.authOk = true → req.method = .POST →
      st.headBucketRes = none →
      st.putObjectRes a.cfg.bucket (diagKey u1) diagBody "text/plain" = none →
      validationError req.file = some m →
      P (renderPage a.cfg none (some m) none,
         [.headBucket a.cfg.bucket,
          .putObject a.cfg.bucket (diagKey u1) diagBody "text/plain"]))
    (hPutF : ∀ f e, a.authOk = true → req.method = .POST → req.file = some f →
      f.filename ≠ "" → secure_filename f.filename ≠ "" →
      st.headBucketRes = none →
      st.putObjectRes a.cfg.bucket (diagKey u1) diagBody "text/plain" = none →
      st.putObjectRes a.cfg.bucket (uploadKey u2 (secure_filename f.filename))
          f.content (contentTypeOf f) = some e →
      P (renderPage a.cfg none (some (errText e)) none,
         [.headBucket a.cfg.bucket,
          .putObject a.cfg.bucket (diagKey u1) diagBody "text/plain",
          .putObject a.cfg.bucket (uploadKey u2 (secure_filename f.filename))
            f.content (contentTypeOf f)]))
    (hSucc : ∀ f, a.authOk = true → req.method = .POST → req.file = some f →
      f.filename ≠ "" → secure_filename f.filename ≠ "" →
      st.headBucketRes = none →
      st.putObjectRes a.cfg.bucket (diagKey u1) diagBody "text/plain" = none →
      st.putObjectRes a.cfg.bucket (uploadKey u2 (secure_filename f.filename))
          f.content (contentTypeOf f) = none →
      P (renderPage a.cfg
           (some (st.presignUrl a.cfg.bucket (uploadKey u2 (secure_filename f.filename)) 3600))
           none none,
         [.headBucket a.cfg.bucket,
          .putObject a.cfg.bucket (diagKey u1) diagBody "text/plain",
          .putObject a.cfg.bucket (uploadKey u2 (secure_filename f.filename))
            f.content (contentTypeOf f),
          .presignGetObject a.cfg.bucket (uploadKey u2 (secure_filename f.filename)) 3600])) :
    P (index a req st u1 u2) := by
  cases hA : a.authOk with
  | false =>
    rw [index_authFail a req st u1 u2 hA]
    exact hAuth hA
  | true =>
    cases hM : req.method with
    | GET =>
      rw [index_get a req st u1 u2 hA hM]
      exact hGet hA hM
    | POST =>
      cases hH : st.headBucketRes with
      | some e =>
        rw [index_headFail a req st u1 u2 e hA hM hH]
        exact hHead e hA hM hH
      | none =>
        cases hD : st.putObjectRes a.cfg.bucket (diagKey u1) diagBody "text/plain" with
        | some e =>
          rw [index_diagFail a req st u1 u2 e hA hM hH hD]
          exact hDiag e hA hM hH hD
        | none =>
          match hF : req.file with
          | none =>
            have hV : validationError req.file = some "No file selected." := by
              simp [validationError, hF]
            rw [index_invalid a req st u1 u2 _ hA hM hH hD hV]
            exact hInv _ hA hM hH hD hV
          | some f =>
            by_cases hft : f.filename = ""
            · have hV : validationError req.file = some "No file selected." := by
                simp [validationError, hF, hft]
              rw [index_invalid a req st u1 u2 _ hA hM hH hD hV]
              exact hInv _ hA hM hH hD hV
            · by_cases hsf : secure_filename f.filename = ""
              · have hV : validationError req.file = some "Invalid filename." := by
                  simp [validationError, hF, hft, hsf]
                rw [index_invalid a req st u1 u2 _ hA hM hH hD hV]
                exact hInv _ hA hM hH hD hV
              · cases hP : st.putObjectRes a.cfg.bucket
                    (uploadKey u2 (secure_filename f.filename)) f.content (contentTypeOf f) with
                | some e =>
                  rw [index_putFail a req st u1 u2 f e hA hM hF hft hsf hH hD hP]
                  exact hPutF f e hA hM hF hft hsf hH hD hP
                | none =>
                  rw [index_success a req st u1 u2 f hA hM hF hft hsf hH hD hP]
                  exact hSucc f hA hM hF hft hsf hH hD hP

/-! ## Claims -/

/-- C1 (counterexample): a POST whose input validation fails (no file part)
against an all-succeeding store gets the local message "No file selected.",
yet the head-bucket call and the diagnostic put were already made for that
request — refuting "without any store call having been made". -/
theorem C1_counterexample :
    (index app0 reqNoFile okStore "D" "U").1.error = some "No file selected."
      ∧ (index app0 reqNoFile okStore "D" "U").2 =
          [.headBucket "demo-bucket",
           .putObject "demo-bucket" "diag/D.txt" diagBody "text/plain"] :=
  ⟨rfl, rfl⟩

/-- C1 (amended): for every upload request whose input validation fails
(no file part, falsy filename, or a name empty after sanitization), the
handler returns the local error message and no real put is made for that
request; however the head-bucket check and the diagnostic put have already
been executed, because validation happens only after the preflight steps. -/
theorem C1_validation_local_message
    (a : App) (req : Request) (st : Store) (uDiag uUp : String) (m : String)
    (hA : a.authOk = true) (hM : req.method = .POST)
    (hH : st.headBucketRes = none)
    (hD : st.putObjectRes a.cfg.bucket (diagKey uDiag) diagBody "text/plain" = none)
    (hV : validationError req.file = some m) :
    (index a req st uDiag uUp).1.error = some m
      ∧ (index a req st uDiag uUp).2 =
          [.headBucket a.cfg.bucket,
           .putObject a.cfg.bucket (diagKey uDiag) diagBody "text/plain"]
      ∧ ∀ c ∈ (index a req st uDiag uUp).2, isRealUploadPut c = false := by
  rw [index_invalid a req st uDiag uUp m hA hM hH hD hV]
  refine ⟨rfl, rfl, ?_⟩
  intro c hc
  simp only [List.mem_cons, List.not_mem_nil, or_false] at hc
  rcases hc with rfl | rfl
  · exact isRealUploadPut_head _
  · exact isRealUploadPut_diag _ _ _ _

/-- C1 (witness): the amended statement at a concrete request whose
filename sanitises to empty. -/
theorem C1_witness :
    (index app0 reqDots okStore "D" "U").1.error = some "Invalid filename."
      ∧ (index app0 reqDots okStore "D" "U").2 =
          [.headBucket "demo-bucket",
           .putObject "demo-bucket" "diag/D.txt" diagBody "text/plain"]
      ∧ ∀ c ∈ (index app0 reqDots okStore "D" "U").2, isRealUploadPut c = false :=
  C1_validation_local_message app0 reqDots okStore "D" "U" "Invalid filename."
    rfl rfl rfl rfl (by decide)

/-- C2 (counterexample): with the access key present but empty (and every
other value set), the module-level `WASABI_ACCESS_KEY.strip()` is
`None.strip()` — the process crashes at startup instead of starting and
flagging a startup error. -/
theorem C2_counterexample :
    startup
        { accessKey := some "", secretKey := some "secret",
          region := some "us-east-1",
          endpointURL := some "https://s3.us-east-1.wasabisys.com",
          bucket := some "demo-bucket" } okStore
      = .error .attributeErrorNoneStrip := rfl

/-- C2 (amended): the process starts iff the access key, secret key,
region and endpoint are all present and non-empty — a missing one of those
four raises AttributeError at module level; only the bucket may be absent
without preventing startup, and a started process caches exactly the
`auth_ok` result. -/
theorem C2_startup_requires_core_config (e : RawEnv) (st : Store) :
    (startup e st).isOk = stripRequiredPresent e
      ∧ (stripRequiredPresent e = true → startup e st = .ok (auth_ok st)) := by
  cases hA : envRead e.accessKey <;> cases hS : envRead e.secretKey <;>
    cases hR : envRead e.region <;> cases hE : envRead e.endpointURL <;>
      constructor <;>
        simp [startup, buildClient, pyStrip, stripRequiredPresent, hA, hS, hR, hE,
          Except.isOk, Except.toBool, Bind.bind, Except.bind, pure, Except.pure]

/-- C9: `diag_put` issues exactly one put of the fixed body `b"diag"` as
`text/plain` under the fresh key `diag/<uuid>.txt` — a namespace disjoint
from every `uploads/` key — returns no error on success (and performs no
delete/cleanup), and on failure returns the store error text verbatim. -/
theorem C9_diag_put_contract (cfg : RunConfig) (st : Store) (u : String) :
    (diag_put cfg st u).2 =
        [.putObject cfg.bucket (diagKey u) diagBody "text/plain"]
      ∧ diagKey u = "diag/" ++ (u ++ ".txt")
      ∧ (∀ v n, diagKey u ≠ uploadKey v n)
      ∧ (st.putObjectRes cfg.bucket (diagKey u) diagBody "text/plain" = none →
          (diag_put cfg st u).1 = none)
      ∧ (∀ e, st.putObjectRes cfg.bucket (diagKey u) diagBody "text/plain" = some e →
          (diag_put cfg st u).1 = some (errText e))
      ∧ (∀ c ∈ (diag_put cfg st u).2, ∀ b k, c ≠ .deleteObject b k) := by
  refine ⟨?_, ?_, diagKey_ne_uploadKey u, ?_, ?_, ?_⟩
  · cases hP : st.putObjectRes cfg.bucket (diagKey u) diagBody "text/plain" <;>
      simp [diag_put, hP]
  · show ("diag/" ++ u) ++ ".txt" = "diag/" ++ (u ++ ".txt")
    exact String.append_assoc "diag/" u ".txt"
  · intro hP
    simp [diag_put, hP]
  · intro e hP
    simp [diag_put, hP]
  · intro c hc b k
    cases hP : st.putObjectRes cfg.bucket (diagKey u) diagBody "text/plain" <;>
      simp [diag_put, hP] at hc <;> simp [hc]

/-- C3: the handler is total and every modelled store failure is converted
into a message on the rendered page: every render carries a startup error,
a success URL, an error message, or is the clean empty form; and on an
upload POST (startup auth ok) the outcome is exactly a success URL with no
error, or an error message with no URL — no failure escapes the handler. -/
theorem C3_failures_rendered_as_messages
    (a : App) (req : Request) (st : Store) (uDiag uUp : String) :
    ((index a req st uDiag uUp).1.startupError.isSome = true
        ∨ (index a req st uDiag uUp).1.url.isSome = true
        ∨ (index a req st uDiag uUp).1.error.isSome = true
        ∨ index a req st uDiag uUp = (renderPage a.cfg none none none, []))
      ∧ (a.authOk = true → req.method = .POST →
          ((index a req st uDiag uUp).1.url.isSome = true
              ∧ (index a req st uDiag uUp).1.error = none)
            ∨ ((index a req st uDiag uUp).1.url = none
              ∧ (index a req st uDiag uUp).1.error.isSome = true)) := by
  refine index_cases a req st uDiag uUp
    (fun r =>
      (r.1.startupError.isSome = true ∨ r.1.url.isSome = true
          ∨ r.1.error.isSome = true ∨ r = (renderPage a.cfg none none none, []))
        ∧ (a.authOk = true → req.method = .POST →
            (r.1.url.isSome = true ∧ r.1.error = none)
              ∨ (r.1.url = none ∧ r.1.error.isSome = true)))
    ?_ ?_ ?_ ?_ ?_ ?_ ?_
  · intro hA
    refine ⟨?_, fun hA2 _ => absurd (hA.symm.trans hA2) (by decide)⟩
    cases hE : a.authErr <;> simp [renderPage, hE]
  · intro _ hM
    exact ⟨Or.inr (Or.inr (Or.inr rfl)),
      fun _ hM2 => absurd (hM.symm.trans hM2) (by decide)⟩
  · intro e _ _ _
    exact ⟨Or.inr (Or.inr (Or.inl rfl)), fun _ _ => Or.inr ⟨rfl, rfl⟩⟩
  · intro e _ _ _ _
    exact ⟨Or.inr (Or.inr (Or.inl rfl)), fun _ _ => Or.inr ⟨rfl, rfl⟩⟩
  · intro m _ _ _ _ _
    exact ⟨Or.inr (Or.inr (Or.inl rfl)), fun _ _ => Or.inr ⟨rfl, rfl⟩⟩
  · intro f e _ _ _ _ _ _ _ _
    exact ⟨Or.inr (Or.inr (Or.inl rfl)), fun _ _ => Or.inr ⟨rfl, rfl⟩⟩
  · intro f _ _ _ _ _ _ _ _
    exact ⟨Or.inr (Or.inl rfl), fun _ _ => Or.inl ⟨rfl, rfl⟩⟩

/-- C4: when a POST upload passes sanitization with result `n`, the key of
the real put is exactly `uploads/<uuid>_<n>` built from the fresh random
component of that request; the only other key ever put is the diagnostic
one, and distinct random components give distinct keys for the same name. -/
theorem C4_upload_key_shape
    (a : App) (req : Request) (st : Store) (uDiag uUp : String) (f : FileStorage)
    (hA : a.authOk = true) (hM : req.method = .POST) (hF : req.file = some f)
    (hft : f.filename ≠ "") (hsf : secure_filename f.filename ≠ "")
    (hH : st.headBucketRes = none)
    (hD : st.putObjectRes a.cfg.bucket (diagKey uDiag) diagBody "text/plain" = none) :
    uploadKey uUp (secure_filename f.filename)
        = "uploads/" ++ uUp ++ "_" ++ secure_filename f.filename
      ∧ StoreCall.putObject a.cfg.bucket (uploadKey uUp (secure_filename f.filename))
          f.content (contentTypeOf f) ∈ (index a req st uDiag uUp).2
      ∧ (∀ b k body ct,
          StoreCall.putObject b k body ct ∈ (index a req st uDiag uUp).2 →
            k = diagKey uDiag ∨ k = uploadKey uUp (secure_filename f.filename))
      ∧ (∀ v, uploadKey v (secure_filename f.filename)
            = uploadKey uUp (secure_filename f.filename) → v = uUp) := by
  refine ⟨rfl, ?_, ?_, fun v hv => uploadKey_injective_id v uUp _ hv⟩ <;>
    cases hP : st.putObjectRes a.cfg.bucket (uploadKey uUp (secure_filename f.filename))
        f.content (contentTypeOf f)
  · rw [index_success a req st uDiag uUp f hA hM hF hft hsf hH hD hP]
    simp
  · rw [index_putFail a req st uDiag uUp f _ hA hM hF hft hsf hH hD hP]
    simp
  · rw [index_success a req st uDiag uUp f hA hM hF hft hsf hH hD hP]
    intro b k body ct hmem
    simp only [List.mem_cons, List.not_mem_nil, or_false] at hmem
    rcases hmem with h | h | h | h <;> simp_all
  · rw [index_putFail a req st uDiag uUp f _ hA hM hF hft hsf hH hD hP]
    intro b k body ct hmem
    simp only [List.mem_cons, List.not_mem_nil, or_false] at hmem
    rcases hmem with h | h | h <;> simp_all

/-- C4 (witness): the key shape at a concrete successful upload. -/
theorem C4_witness :
    uploadKey "U" (secure_filename "report.pdf")
        = "uploads/" ++ "U" ++ "_" ++ secure_filename "report.pdf"
      ∧ StoreCall.putObject "demo-bucket" (uploadKey "U" (secure_filename "report.pdf"))
          [1, 2, 3] (contentTypeOf ⟨"report.pdf", [1, 2, 3], "application/pdf"⟩)
          ∈ (index app0 reqGood okStore "D" "U").2
      ∧ (∀ b k body ct,
          StoreCall.putObject b k body ct ∈ (index app0 reqGood okStore "D" "U").2 →
            k = diagKey "D" ∨ k = uploadKey "U" (secure_filename "report.pdf"))
      ∧ (∀ v, uploadKey v (secure_filename "report.pdf")
            = uploadKey "U" (secure_filename "report.pdf") → v = "U") :=
  C4_upload_key_shape app0 reqGood okStore "D" "U" ⟨"report.pdf", [1, 2, 3], "application/pdf"⟩
    rfl rfl rfl (by decide) (by decide) rfl rfl

/-- C5: on a successful write of the user object, the handler renders the
presigned URL for exactly the written key, and the final store call is the
get-object presign for that same key with an expiry of exactly 3600
seconds. -/
theorem C5_presign_after_write
    (a : App) (req : Request) (st : Store) (uDiag uUp : String) (f : FileStorage)
    (hA : a.authOk = true) (hM : req.method = .POST) (hF : req.file = some f)
    (hft : f.filename ≠ "") (hsf : secure_filename f.filename ≠ "")
    (hH : st.headBucketRes = none)
    (hD : st.putObjectRes a.cfg.bucket (diagKey uDiag) diagBody "text/plain" = none)
    (hP : st.putObjectRes a.cfg.bucket (uploadKey uUp (secure_filename f.filename))
            f.content (contentTypeOf f) = none) :
    (index a req st uDiag uUp).1.url
        = some (st.presignUrl a.cfg.bucket (uploadKey uUp (secure_filename f.filename)) 3600)
      ∧ (index a req st uDiag uUp).2.getLast?
          = some (.presignGetObject a.cfg.bucket (uploadKey uUp (secure_filename f.filename)) 3600)
      ∧ (index a req st uDiag uUp).2 =
          [.headBucket a.cfg.bucket,
           .putObject a.cfg.bucket (diagKey uDiag) diagBody "text/plain",
           .putObject a.cfg.bucket (uploadKey uUp (secure_filename f.filename))
             f.content (contentTypeOf f),
           .presignGetObject a.cfg.bucket (uploadKey uUp (secure_filename f.filename)) 3600] := by
  rw [index_success a req st uDiag uUp f hA hM hF hft hsf hH hD hP]
  exact ⟨rfl, rfl, rfl⟩

/-- C5 (witness): the presign contract at a concrete successful upload. -/
theorem C5_witness :
    (index app0 reqGood okStore "D" "U").1.url
        = some (okStore.presignUrl "demo-bucket" (uploadKey "U" (secure_filename "report.pdf")) 3600)
      ∧ (index app0 reqGood okStore "D" "U").2.getLast?
          = some (.presignGetObject "demo-bucket" (uploadKey "U" (secure_filename "report.pdf")) 3600)
      ∧ (index app0 reqGood okStore "D" "U").2 =
          [.headBucket "demo-bucket",
           .putObject "demo-bucket" (diagKey "D") diagBody "text/plain",
           .putObject "demo-bucket" (uploadKey "U" (secure_filename "report.pdf"))
             [1, 2, 3] (contentTypeOf ⟨"report.pdf", [1, 2, 3], "application/pdf"⟩),
           .presignGetObject "demo-bucket" (uploadKey "U" (secure_filename "report.pdf")) 3600] :=
  C5_presign_after_write app0 reqGood okStore "D" "U"
    ⟨"report.pdf", [1, 2, 3], "application/pdf"⟩
    rfl rfl rfl (by decide) (by decide) rfl rfl rfl

/-- C6: every head-bucket `ClientError` is classified by first match into
not-found (message containing the configured bucket and region),
permission-denied, or region-mismatch, any other error text passing through
verbatim; and a preflight failure ends the request after the single
head-bucket call — no diagnostic or real write is attempted. -/
theorem C6_preflight_classification (cfg : RunConfig) (st : Store) (e : ClientError)
    (hH : st.headBucketRes = some e) :
    ((strIn "NoSuchBucket" (errText e) || strIn "404" (errText e)) = true →
        (preflight_bucket cfg st).1 = some (notFoundMsg cfg)
          ∧ (∃ p s, notFoundMsg cfg = p ++ cfg.bucket ++ s)
          ∧ (∃ p s, notFoundMsg cfg = p ++ cfg.region ++ s))
      ∧ ((strIn "NoSuchBucket" (errText e) || strIn "404" (errText e)) = false →
          (strIn "AccessDenied" (errText e) || strIn "403" (errText e)) = true →
          (preflight_bucket cfg st).1 = some accessDeniedMsg)
      ∧ ((strIn "NoSuchBucket" (errText e) || strIn "404" (errText e)) = false →
          (strIn "AccessDenied" (errText e) || strIn "403" (errText e)) = false →
          (strIn "AuthorizationHeaderMalformed" (errText e) || strIn "301" (errText e)) = true →
          (preflight_bucket cfg st).1 = some regionMismatchMsg)
      ∧ ((strIn "NoSuchBucket" (errText e) || strIn "404" (errText e)) = false →
          (strIn "AccessDenied" (errText e) || strIn "403" (errText e)) = false →
          (strIn "AuthorizationHeaderMalformed" (errText e) || strIn "301" (errText e)) = false →
          (preflight_bucket cfg st).1 = some (errText e))
      ∧ (∀ (a : App) (req : Request) (uDiag uUp : String),
          a.cfg = cfg → a.authOk = true → req.method = .POST →
          (index a req st uDiag uUp).2 = [.headBucket cfg.bucket]) := by
  have hpre : preflight_bucket cfg st
      = (some (classifyHeadErr cfg (errText e)), [.headBucket cfg.bucket]) := by
    simp [preflight_bucket, hH]
  refine ⟨?_, ?_, ?_, ?_, ?_⟩
  · intro h1
    refine ⟨by rw [hpre]; simp [classifyHeadErr, h1], ?_, ?_⟩
    · refine ⟨"Bucket not found. Check spelling and region. (bucket=" ++ "\'",
        "\'" ++ ", region=" ++ cfg.region ++ ", endpoint=" ++ cfg.endpointURL ++ ")", ?_⟩
      apply String.ext
      simp [notFoundMsg, pyReprStr, String.data_append, List.append_assoc]
    · refine ⟨"Bucket not found. Check spelling and region. (bucket="
          ++ pyReprStr cfg.bucket ++ ", region=",
        ", endpoint=" ++ cfg.endpointURL ++ ")", ?_⟩
      apply String.ext
      simp [notFoundMsg, pyReprStr, String.data_append, List.append_assoc]
  · intro h1 h2
    rw [hpre]
    simp [classifyHeadErr, h1, h2]
  · intro h1 h2 h3
    rw [hpre]
    simp [classifyHeadErr, h1, h2, h3]
  · intro h1 h2 h3
    rw [hpre]
    simp [classifyHeadErr, h1, h2, h3]
  · intro a req uDiag uUp hcfg hA hM
    rw [index_headFail a req st uDiag uUp e hA hM hH, hcfg]

/-- C6 (witness): the not-found class at a concrete `NoSuchBucket` error,
with the bucket name and region contained in the message. -/
theorem C6_witness :
    (preflight_bucket cfg0 nfStore).1 = some (notFoundMsg cfg0)
      ∧ (∃ p s, notFoundMsg cfg0 = p ++ cfg0.bucket ++ s)
      ∧ (∃ p s, notFoundMsg cfg0 = p ++ cfg0.region ++ s) :=
  (C6_preflight_classification cfg0 nfStore
    ⟨"NoSuchBucket", "The specified bucket does not exist"⟩ rfl).1 (by decide)

/-- C7: the startup auth result is computed by exactly one list-buckets
call at process start and cached; when the cached value is false every
request (GET or POST) renders the startup error with no store call at all,
and no request handler ever re-runs the auth probe. -/
theorem C7_cached_startup_auth
    (cfg : RunConfig) (st0 : Store) (req : Request) (st : Store) (uDiag uUp : String) :
    (mkApp cfg st0).2 = [.listBuckets]
      ∧ ((mkApp cfg st0).1.authOk = false →
          index (mkApp cfg st0).1 req st uDiag uUp =
            (renderPage cfg none none (mkApp cfg st0).1.authErr, []))
      ∧ StoreCall.listBuckets ∉ (index (mkApp cfg st0).1 req st uDiag uUp).2 := by
  refine ⟨?_, ?_, ?_⟩
  · cases hL : st0.listBucketsRes <;> simp [mkApp, auth_ok, hL]
  · intro hA
    exact index_authFail (mkApp cfg st0).1 req st uDiag uUp hA
  · refine index_cases (mkApp cfg st0).1 req st uDiag uUp
      (fun r => StoreCall.listBuckets ∉ r.2) ?_ ?_ ?_ ?_ ?_ ?_ ?_ <;>
        intros <;> simp

/-- C8: on every upload POST with startup auth ok the first store call is
the fresh head-bucket check, and the steps run in the fixed order
head-bucket, diagnostic put, real put, presign, each failure ending the
trace at that step. -/
theorem C8_request_pipeline_order
    (a : App) (req : Request) (st : Store) (uDiag uUp : String)
    (hA : a.authOk = true) (hM : req.method = .POST) :
    ((index a req st uDiag uUp).2).head? = some (.headBucket a.cfg.bucket)
      ∧ (∀ e, st.headBucketRes = some e →
          (index a req st uDiag uUp).2 = [.headBucket a.cfg.bucket])
      ∧ (∀ e, st.headBucketRes = none →
          st.putObjectRes a.cfg.bucket (diagKey uDiag) diagBody "text/plain" = some e →
          (index a req st uDiag uUp).2 =
            [.headBucket a.cfg.bucket,
             .putObject a.cfg.bucket (diagKey uDiag) diagBody "text/plain"])
      ∧ (∀ m, st.headBucketRes = none →
          st.putObjectRes a.cfg.bucket (diagKey uDiag) diagBody "text/plain" = none →
          validationError req.file = some m →
          (index a req st uDiag uUp).2 =
            [.headBucket a.cfg.bucket,
             .putObject a.cfg.bucket (diagKey uDiag) diagBody "text/plain"])
      ∧ (∀ f, req.file = some f → f.filename ≠ "" → secure_filename f.filename ≠ "" →
          st.headBucketRes = none →
          st.putObjectRes a.cfg.bucket (diagKey uDiag) diagBody "text/plain" = none →
          (∀ e, st.putObjectRes a.cfg.bucket (uploadKey uUp (secure_filename f.filename))
              f.content (contentTypeOf f) = some e →
            (index a req st uDiag uUp).2 =
              [.headBucket a.cfg.bucket,
               .putObject a.cfg.bucket (diagKey uDiag) diagBody "text/plain",
               .putObject a.cfg.bucket (uploadKey uUp (secure_filename f.filename))
                 f.content (contentTypeOf f)])
            ∧ (st.putObjectRes a.cfg.bucket (uploadKey uUp (secure_filename f.filename))
                f.content (contentTypeOf f) = none →
              (index a req st uDiag uUp).2 =
                [.headBucket a.cfg.bucket,
                 .putObject a.cfg.bucket (diagKey uDiag) diagBody "text/plain",
                 .putObject a.cfg.bucket (uploadKey uUp (secure_filename f.filename))
                   f.content (contentTypeOf f),
                 .presignGetObject a.cfg.bucket
                   (uploadKey uUp (secure_filename f.filename)) 3600])) := by
  refine ⟨?_, ?_, ?_, ?_, ?_⟩
  · refine index_cases a req st uDiag uUp
      (fun r => r.2.head? = some (.headBucket a.cfg.bucket)) ?_ ?_ ?_ ?_ ?_ ?_ ?_
    · intro hA0
      exact absurd (hA.symm.trans hA0) (by decide)
    · intro _ hM0
      exact absurd (hM.symm.trans hM0) (by decide)
    · intro e _ _ _
      rfl
    · intro e _ _ _ _
      rfl
    · intro m _ _ _ _ _
      rfl
    · intro f e _ _ _ _ _ _ _ _
      rfl
    · intro f _ _ _ _ _ _ _ _
      rfl
  · intro e hH
    rw [index_headFail a req st uDiag uUp e hA hM hH]
  · intro e hH hD
    rw [index_diagFail a req st uDiag uUp e hA hM hH hD]
  · intro m hH hD hV
    rw [index_invalid a req st uDiag uUp m hA hM hH hD hV]
  · intro f hF hft hsf hH hD
    constructor
    · intro e hP
      rw [index_putFail a req st uDiag uUp f e hA hM hF hft hsf hH hD hP]
    · intro hP
      rw [index_success a req st uDiag uUp f hA hM hF hft hsf hH hD hP]

/-- C8 (witness): the first store call of a concrete upload POST is the
head-bucket check. -/
theorem C8_witness :
    ((index app0 reqGood okStore "D" "U").2).head? = some (.headBucket "demo-bucket") :=
  (C8_request_pipeline_order app0 reqGood okStore "D" "U" rfl rfl).1

/-- C10 (counterexample): a POST carrying a `file` part with empty declared
filename against an all-succeeding store is answered with "No file
selected.", yet an object (the preflight diagnostic object) was written for
that request — refuting "no object is written". -/
theorem C10_counterexample :
    (index app0 reqEmptyName okStore "D" "U").1.error = some "No file selected."
      ∧ (index app0 reqEmptyName okStore "D" "U").2 =
          [.headBucket "demo-bucket",
           .putObject "demo-bucket" "diag/D.txt" diagBody "text/plain"] :=
  ⟨rfl, rfl⟩

/-- C10 (amended): a POST whose `file` part declares the empty filename is
handled identically to a POST with no file part — it reports "No file
selected." (not "Invalid filename.") once the preflight steps have passed —
and no object under `uploads/` is written for the request, though the
diagnostic object under `diag/` still is. -/
theorem C10_empty_filename_like_missing
    (a : App) (req : Request) (st : Store) (uDiag uUp : String) (f : FileStorage)
    (hA : a.authOk = true) (hM : req.method = .POST) (hF : req.file = some f)
    (hname : f.filename = "") :
    index a req st uDiag uUp = index a { method := .POST, file := none } st uDiag uUp
      ∧ (st.headBucketRes = none →
          st.putObjectRes a.cfg.bucket (diagKey uDiag) diagBody "text/plain" = none →
          (index a req st uDiag uUp).1.error = some "No file selected."
            ∧ (index a req st uDiag uUp).1.error ≠ some "Invalid filename.")
      ∧ (∀ c ∈ (index a req st uDiag uUp).2, isRealUploadPut c = false) := by
  have hV : validationError req.file = some "No file selected." := by
    simp [validationError, hF, hname]
  refine ⟨?_, ?_, ?_⟩
  · cases hH : st.headBucketRes with
    | some e =>
      rw [index_headFail a req st uDiag uUp e hA hM hH,
        index_headFail a { method := .POST, file := none } st uDiag uUp e hA rfl hH]
    | none =>
      cases hD : st.putObjectRes a.cfg.bucket (diagKey uDiag) diagBody "text/plain" with
      | some e =>
        rw [index_diagFail a req st uDiag uUp e hA hM hH hD,
          index_diagFail a { method := .POST, file := none } st uDiag uUp e hA rfl hH hD]
      | none =>
        rw [index_invalid a req st uDiag uUp _ hA hM hH hD hV,
          index_invalid a { method := .POST, file := none } st uDiag uUp
            "No file selected." hA rfl hH hD (by simp [validationError])]
  · intro hH hD
    rw [index_invalid a req st uDiag uUp _ hA hM hH hD hV]
    exact ⟨rfl, by simp [renderPage]⟩
  · cases hH : st.headBucketRes with
    | some e =>
      rw [index_headFail a req st uDiag uUp e hA hM hH]
      intro c hc
      simp only [List.mem_cons, List.not_mem_nil, or_false] at hc
      rw [hc]
      exact isRealUploadPut_head _
    | none =>
      cases hD : st.putObjectRes a.cfg.bucket (diagKey uDiag) diagBody "text/plain" with
      | some e =>
        rw [index_diagFail a req st uDiag uUp e hA hM hH hD]
        intro c hc
        simp only [List.mem_cons, List.not_mem_nil, or_false] at hc
        rcases hc with rfl | rfl
        · exact isRealUploadPut_head _
        · exact isRealUploadPut_diag _ _ _ _
      | none =>
        rw [index_invalid a req st uDiag uUp _ hA hM hH hD hV]
        intro c hc
        simp only [List.mem_cons, List.not_mem_nil, or_false] at hc
        rcases hc with rfl | rfl
        · exact isRealUploadPut_head _
        · exact isRealUploadPut_diag _ _ _ _

/-- C10 (witness): the amended statement at a concrete empty-filename
part. -/
theorem C10_witness :
    (index app0 reqEmptyName okStore "D" "U").1.error = some "No file selected."
      ∧ (index app0 reqEmptyName okStore "D" "U").1.error ≠ some "Invalid filename." :=
  (C10_empty_filename_like_missing app0 reqEmptyName okStore "D" "U"
    ⟨"", [], ""⟩ rfl rfl rfl rfl).2.1 rfl rfl

end WasabiApp
